import Mathlib

/-!
Verification of the rent-vs-buy calculation engine.

A shallow embedding of `src/utils/calculations.ts` (the projection engine
`calculateRentVsBuy`, the mortgage-payment primitive, the Monte Carlo
percentile reducer and the sensitivity sweeper) over exact rational
arithmetic.  JavaScript numbers are modelled as `ℚ`; the yearly loop is
modelled as explicit state passing (`LoopState`, `step`, `runYears`);
`Math.round(x*100)/100` is modelled as `round2`; the JavaScript access
fault on an empty projection list is modelled with `Option`.
Randomness in the Monte Carlo sampler is modelled by passing the list of
Gaussian perturbation triples (one per simulation run) as an explicit
argument.
-/

namespace RentVsBuy

/-- `Math.round (x * 100) / 100` : round to 2 decimal places, halves toward
positive infinity (JavaScript `Math.round` semantics). -/
def round2 (x : ℚ) : ℚ := (⌊x * 100 + 1 / 2⌋ : ℤ) / 100

/-- The `FinancialInputs` record of `src/types/calculator.ts`.  Loan term and
time horizon are whole years (`ℕ`); every other field is a number (`ℚ`). -/
structure FinancialInputs where
  homePrice : ℚ
  downPaymentPercent : ℚ
  currentRent : ℚ
  interestRate : ℚ
  loanTermYears : ℕ
  pmiRate : ℚ
  propertyTaxRate : ℚ
  homeInsurance : ℚ
  maintenanceRate : ℚ
  hoaFees : ℚ
  rentGrowthRate : ℚ
  investmentReturn : ℚ
  inflationRate : ℚ
  homeAppreciationRate : ℚ
  timeHorizonYears : ℕ
  marginalTaxRate : ℚ
  otherDeductions : ℚ
  closingCostsPercent : ℚ
  sellingCostsPercent : ℚ


/-- `calculateMortgagePayment` (calculations.ts lines 5-21): the standard
amortizing-loan monthly payment, rounded to 2 decimals; straight-line
`principal / numPayments` when the monthly rate is 0 (that branch returns
before the rounding). -/
def calculateMortgagePayment (principal annualRate : ℚ) (termYears : ℕ) : ℚ :=
  let monthlyRate := annualRate / 100 / 12
  let numPayments := termYears * 12
  if monthlyRate = 0 then principal / numPayments
  else
    round2 (principal * (monthlyRate * (1 + monthlyRate) ^ numPayments) /
      ((1 + monthlyRate) ^ numPayments - 1))

/-- The `YearlyProjection` record of `src/types/calculator.ts`. -/
structure YearlyProjection where
  year : ℕ
  rentPayment : ℚ
  totalRentPaid : ℚ
  rentUpfrontCosts : ℚ
  mortgagePayment : ℚ
  pmiPayment : ℚ
  propertyTax : ℚ
  insurance : ℚ
  maintenance : ℚ
  hoa : ℚ
  totalOwnershipCost : ℚ
  cumulativeOwnershipCost : ℚ
  homeValue : ℚ
  mortgageBalance : ℚ
  homeEquity : ℚ
  buyUpfrontCosts : ℚ
  mortgageInterestPaid : ℚ
  propertyTaxPaid : ℚ
  taxSavings : ℚ
  investmentValue : ℚ
  rentNetWorth : ℚ
  buyNetWorth : ℚ
  rentCashFlow : ℚ
  buyCashFlow : ℚ
  sellingCosts : ℚ
  netProceedsIfSold : ℚ


/-- The `CalculationResults` record of `src/types/calculator.ts`
(the optional `monteCarloResults` field is never set by the engine and is
omitted). -/
structure CalculationResults where
  yearlyProjections : List YearlyProjection
  breakEvenYear : Option ℕ
  totalCostRent : ℚ
  totalCostBuy : ℚ
  netWorthDifference : ℚ
  totalTaxSavings : ℚ
  totalInterestPaid : ℚ


/-- `downPayment` (line 160). -/
def downPayment (inp : FinancialInputs) : ℚ :=
  inp.homePrice * (inp.downPaymentPercent / 100)

/-- `loanAmount` (line 161). -/
def loanAmount (inp : FinancialInputs) : ℚ := inp.homePrice - downPayment inp

/-- `monthlyMortgage` (line 162). -/
def monthlyMortgage (inp : FinancialInputs) : ℚ :=
  calculateMortgagePayment (loanAmount inp) inp.interestRate inp.loanTermYears

/-- `annualMortgage` (line 163). -/
def annualMortgage (inp : FinancialInputs) : ℚ := monthlyMortgage inp * 12

/-- `hasPMI` (line 166): PMI exists iff the down payment is below 20%. -/
def hasPMI (inp : FinancialInputs) : Prop := inp.downPaymentPercent < 20

instance (inp : FinancialInputs) : Decidable (hasPMI inp) := by
  unfold hasPMI; infer_instance

/-- `annualPMIForComparison` (line 198, identical to the loop-invariant
`annualPMI` of line 167): the PMI term of the per-year ownership-cost
comparison baseline.  It is gated by the constant `hasPMI` and computed on
the original `loanAmount`. -/
def annualPMIForComparison (inp : FinancialInputs) : ℚ :=
  if hasPMI inp then loanAmount inp * (inp.pmiRate / 100) else 0

/-- `closingCosts` (line 170). -/
def closingCosts (inp : FinancialInputs) : ℚ :=
  inp.homePrice * (inp.closingCostsPercent / 100)

/-- `buyUpfrontCosts` (line 173). -/
def buyUpfrontCosts (inp : FinancialInputs) : ℚ :=
  downPayment inp + closingCosts inp + inp.homePrice * (1 / 100)

/-- `rentUpfrontCosts` (line 174). -/
def rentUpfrontCosts (inp : FinancialInputs) : ℚ := inp.currentRent * 2

/-- The mutable variables of the yearly loop (lines 177-185). -/
structure LoopState where
  cumulativeRentCost : ℚ
  cumulativeOwnershipCost : ℚ
  cumulativeTaxSavings : ℚ
  currentRentPayment : ℚ
  mortgageBalance : ℚ
  currentHomeValue : ℚ
  investmentValue : ℚ
  breakEvenYear : Option ℕ


/-- The loop-variable initialisation (lines 177-185). -/
def initState (inp : FinancialInputs) : LoopState where
  cumulativeRentCost := 0
  cumulativeOwnershipCost := 0
  cumulativeTaxSavings := 0
  currentRentPayment := inp.currentRent * 12
  mortgageBalance := loanAmount inp
  currentHomeValue := inp.homePrice
  investmentValue := downPayment inp
  breakEvenYear := none

/-- One iteration of the yearly loop (lines 189-309).  `prevRows` is the
`yearlyProjections` array accumulated so far (read at `year - 2` by the
break-even check); the result is the updated state together with the
`YearlyProjection` row pushed this year. -/
def step (inp : FinancialInputs) (year : ℕ) (prevRows : List YearlyProjection)
    (s : LoopState) : LoopState × YearlyProjection :=
  let cumulativeRentCost := s.cumulativeRentCost + s.currentRentPayment
  let monthlyMortgageForComparison :=
    calculateMortgagePayment (loanAmount inp) inp.interestRate inp.loanTermYears
  let annualMortgageForComparison := monthlyMortgageForComparison * 12
  let annualPropertyTaxForComparison := s.currentHomeValue * (inp.propertyTaxRate / 100)
  let annualMaintenanceForComparison := s.currentHomeValue * (inp.maintenanceRate / 100)
  let totalAnnualOwnershipCostForComparison :=
    annualMortgageForComparison + annualPMIForComparison inp +
      annualPropertyTaxForComparison + inp.homeInsurance +
      annualMaintenanceForComparison + inp.hoaFees
  let monthlySavings :=
    totalAnnualOwnershipCostForComparison / 12 - s.currentRentPayment / 12
  let annualSavings := monthlySavings * 12
  let investmentValue :=
    s.investmentValue * (1 + inp.investmentReturn / 100) + annualSavings
  let annualPropertyTax := s.currentHomeValue * (inp.propertyTaxRate / 100)
  let annualMaintenance := s.currentHomeValue * (inp.maintenanceRate / 100)
  let currentLTV := s.mortgageBalance / s.currentHomeValue
  let annualPMI := if currentLTV > 8 / 10 then s.mortgageBalance * (inp.pmiRate / 100) else 0
  let totalAnnualOwnershipCost :=
    annualMortgage inp + annualPMI + annualPropertyTax + inp.homeInsurance +
      annualMaintenance + inp.hoaFees
  let cumulativeOwnershipCost := s.cumulativeOwnershipCost + totalAnnualOwnershipCost
  let interestPayment := s.mortgageBalance * (inp.interestRate / 100)
  let principalPayment := min (annualMortgage inp - interestPayment) s.mortgageBalance
  let mortgageBalance := round2 (max 0 (s.mortgageBalance - principalPayment))
  let currentHomeValue := s.currentHomeValue * (1 + inp.homeAppreciationRate / 100)
  let homeEquity := round2 (currentHomeValue - mortgageBalance)
  let deductibleInterest := interestPayment
  let deductiblePropertyTax := min annualPropertyTax 10000
  let totalDeductions := deductibleInterest + deductiblePropertyTax + inp.otherDeductions
  let taxSavings := max 0 ((totalDeductions - 29200) * (inp.marginalTaxRate / 100))
  let cumulativeTaxSavings := s.cumulativeTaxSavings + taxSavings
  let sellingCosts := currentHomeValue * (inp.sellingCostsPercent / 100)
  let netProceedsIfSold := currentHomeValue - mortgageBalance - sellingCosts
  let rentNetWorth := investmentValue - cumulativeRentCost
  let buyNetWorth := if year = inp.timeHorizonYears then netProceedsIfSold else homeEquity
  let rentCashFlow := -s.currentRentPayment
  let buyCashFlow := -(totalAnnualOwnershipCost - taxSavings)
  let breakEvenYear :=
    match s.breakEvenYear with
    | some y => some y
    | none =>
      if year = 1 then none
      else
        match prevRows.get? (year - 2) with
        | none => none
        | some prev =>
          let previousAdvantage : Bool := decide (prev.rentNetWorth > prev.buyNetWorth)
          let currentAdvantage : Bool := decide (rentNetWorth > buyNetWorth)
          if previousAdvantage ≠ currentAdvantage then some year else none
  let row : YearlyProjection :=
    { year := year
      rentPayment := s.currentRentPayment
      totalRentPaid := cumulativeRentCost
      rentUpfrontCosts := if year = 1 then rentUpfrontCosts inp else 0
      mortgagePayment := annualMortgage inp
      pmiPayment := annualPMI
      propertyTax := annualPropertyTax
      insurance := inp.homeInsurance
      maintenance := annualMaintenance
      hoa := inp.hoaFees
      totalOwnershipCost := totalAnnualOwnershipCost
      cumulativeOwnershipCost := cumulativeOwnershipCost
      homeValue := currentHomeValue
      mortgageBalance := mortgageBalance
      homeEquity := homeEquity
      buyUpfrontCosts := if year = 1 then buyUpfrontCosts inp else 0
      mortgageInterestPaid := interestPayment
      propertyTaxPaid := annualPropertyTax
      taxSavings := taxSavings
      investmentValue := investmentValue
      rentNetWorth := rentNetWorth
      buyNetWorth := buyNetWorth
      rentCashFlow := rentCashFlow
      buyCashFlow := buyCashFlow
      sellingCosts := sellingCosts
      netProceedsIfSold := netProceedsIfSold }
  ({ cumulativeRentCost := cumulativeRentCost
     cumulativeOwnershipCost := cumulativeOwnershipCost
     cumulativeTaxSavings := cumulativeTaxSavings
     currentRentPayment := s.currentRentPayment * (1 + inp.rentGrowthRate / 100)
     mortgageBalance := mortgageBalance
     currentHomeValue := currentHomeValue
     investmentValue := investmentValue
     breakEvenYear := breakEvenYear }, row)

/-- The first `n` iterations of the yearly loop: the rows pushed so far and
the state after year `n`. -/
def runYears (inp : FinancialInputs) : ℕ → List YearlyProjection × LoopState
  | 0 => ([], initState inp)
  | n + 1 =>
    let r := runYears inp n
    let s := step inp (n + 1) r.1 r.2
    (r.1 ++ [s.2], s.1)

/-- The `yearlyProjections` array produced by `calculateRentVsBuy`. -/
def yearlyProjections (inp : FinancialInputs) : List YearlyProjection :=
  (runYears inp inp.timeHorizonYears).1

/-- The state after the whole loop. -/
def finalState (inp : FinancialInputs) : LoopState :=
  (runYears inp inp.timeHorizonYears).2

/-- The state at the start of year `year` (i.e. after `year - 1` iterations). -/
def stateBefore (inp : FinancialInputs) (year : ℕ) : LoopState :=
  (runYears inp (year - 1)).2

/-- `calculateRentVsBuy` (lines 136-325).  Reading
`yearlyProjections[yearlyProjections.length - 1]` faults when the list is
empty (`timeHorizonYears ≤ 0`); this is modelled by returning `none`. -/
def calculateRentVsBuy (inp : FinancialInputs) : Option CalculationResults :=
  let rows := yearlyProjections inp
  match rows.getLast? with
  | none => none
  | some finalProjection =>
    some
      { yearlyProjections := rows
        breakEvenYear := (finalState inp).breakEvenYear
        totalCostRent := finalProjection.totalRentPaid + rentUpfrontCosts inp
        totalCostBuy := finalProjection.cumulativeOwnershipCost + buyUpfrontCosts inp
        netWorthDifference := finalProjection.buyNetWorth - finalProjection.rentNetWorth
        totalTaxSavings := (finalState inp).cumulativeTaxSavings
        totalInterestPaid := rows.foldl (fun acc p => acc + p.mortgageInterestPaid) 0 }

/-- A five-number percentile summary (the anonymous object type inside
`MonteCarloResult` of `src/types/calculator.ts`). -/
structure PercentileSummary where
  p10 : ℚ
  p25 : ℚ
  p50 : ℚ
  p75 : ℚ
  p90 : ℚ

/-- The `MonteCarloResult` record of `src/types/calculator.ts`. -/
structure MonteCarloResult where
  year : ℕ
  rentNetWorth : PercentileSummary
  buyNetWorth : PercentileSummary

/-- `getPercentile` (lines 64-67): nearest-rank percentile on a sorted array,
`index = floor(n*p/100)` clamped to the last index. -/
def getPercentile (arr : List ℚ) (p : ℕ) : ℚ :=
  arr.getD (min (arr.length * p / 100) (arr.length - 1)) 0

/-- One simulation run's input perturbation (lines 41-50): the three Gaussian
draws (already scaled by the volatility inputs) are added to
`homeAppreciationRate`, `rentGrowthRate` and `investmentReturn`. -/
def perturb (inp : FinancialInputs) (d : ℚ × ℚ × ℚ) : FinancialInputs :=
  { inp with
    homeAppreciationRate := inp.homeAppreciationRate + d.1
    rentGrowthRate := inp.rentGrowthRate + d.2.1
    investmentReturn := inp.investmentReturn + d.2.2 }

/-- Run a fallible computation on every element in order, collecting the
results (the sequential `for`/`forEach` loops with `push`; `none` models the
loop aborting on a thrown access fault). -/
def collectRuns {α β : Type} (f : α → Option β) : List α → Option (List β)
  | [] => some []
  | a :: as =>
    match f a, collectRuns f as with
    | some b, some bs => some (b :: bs)
    | _, _ => none

/-- Line 58/59: one year's net-worth samples across the simulation ensemble,
defaulting to 0 when a run's projection array is short
(`s.yearlyProjections[year - 1]?.rentNetWorth || 0`). -/
def netWorthSamples (sims : List CalculationResults) (year : ℕ)
    (f : YearlyProjection → ℚ) : List ℚ :=
  sims.map fun s => (((s.yearlyProjections.get? (year - 1)).map f).getD 0)

/-- Lines 71-84: the five percentiles read off one (sorted) sample list. -/
def percentileSummary (arr : List ℚ) : PercentileSummary where
  p10 := getPercentile arr 10
  p25 := getPercentile arr 25
  p50 := getPercentile arr 50
  p75 := getPercentile arr 75
  p90 := getPercentile arr 90

/-- Lines 57-86: one year's `MonteCarloResult` (collect both net-worth series
across runs, sort ascending, read the percentiles). -/
def mcYear (sims : List CalculationResults) (year : ℕ) : MonteCarloResult where
  year := year
  rentNetWorth :=
    percentileSummary ((netWorthSamples sims year (fun p => p.rentNetWorth)).insertionSort (· ≤ ·))
  buyNetWorth :=
    percentileSummary ((netWorthSamples sims year (fun p => p.buyNetWorth)).insertionSort (· ≤ ·))

/-- `runMonteCarloSimulation` (lines 32-89).  The random draws are passed
explicitly, one perturbation triple per simulation run (so the number of
simulations is `draws.length`). -/
def runMonteCarloSimulation (inp : FinancialInputs) (draws : List (ℚ × ℚ × ℚ)) :
    Option (List MonteCarloResult) :=
  match collectRuns (fun d => calculateRentVsBuy (perturb inp d)) draws with
  | none => none
  | some simulations =>
    some ((List.range inp.timeHorizonYears).map fun i => mcYear simulations (i + 1))

/-- The `SensitivityAnalysis` record of `src/types/calculator.ts`. -/
structure SensitivityAnalysis where
  parameter : String
  values : List ℚ
  breakEvenYears : List (Option ℕ)
  finalNetWorthDifferences : List ℚ

/-- One entry of the `parameters` array of `runSensitivityAnalysis`
(lines 95-100): name, base value, delta range, whether the delta is relative
(`key === 'homePrice'`), and the field update `(testInputs as any)[param.key] = testValue`. -/
structure SweepParam where
  name : String
  baseValue : ℚ
  range : List ℚ
  relative : Bool
  apply : FinancialInputs → ℚ → FinancialInputs

/-- The fixed `parameters` array (lines 95-100). -/
def sweepParams (b : FinancialInputs) : List SweepParam :=
  [ { name := "Home Price", baseValue := b.homePrice, range := [-20, -10, 0, 10, 20],
      relative := true, apply := fun i v => { i with homePrice := v } },
    { name := "Interest Rate", baseValue := b.interestRate, range := [-2, -1, 0, 1, 2],
      relative := false, apply := fun i v => { i with interestRate := v } },
    { name := "Home Appreciation", baseValue := b.homeAppreciationRate, range := [-2, -1, 0, 1, 2],
      relative := false, apply := fun i v => { i with homeAppreciationRate := v } },
    { name := "Rent Growth", baseValue := b.rentGrowthRate, range := [-2, -1, 0, 1, 2],
      relative := false, apply := fun i v => { i with rentGrowthRate := v } } ]

/-- Lines 109-115: the tested value for a given delta (multiplicative for the
home price, additive for the rate parameters). -/
def testValue (p : SweepParam) (delta : ℚ) : ℚ :=
  if p.relative then p.baseValue * (1 + delta / 100) else p.baseValue + delta

/-- Lines 107-123: run the engine across one parameter's delta range,
recording break-even year and final net-worth difference per delta. -/
def sweepRuns (b : FinancialInputs) (p : SweepParam) : Option (List (Option ℕ × ℚ)) :=
  collectRuns
    (fun delta =>
      (calculateRentVsBuy (p.apply b (testValue p delta))).map
        fun r => (r.breakEvenYear, r.netWorthDifference))
    p.range

/-- `runSensitivityAnalysis` (lines 91-134). -/
def runSensitivityAnalysis (b : FinancialInputs) : Option (List SensitivityAnalysis) :=
  collectRuns
    (fun p =>
      (sweepRuns b p).map fun runs =>
        { parameter := p.name
          values := p.range.map (testValue p)
          breakEvenYears := runs.map Prod.fst
          finalNetWorthDifferences := runs.map Prod.snd })
    (sweepParams b)

/-- The net-worth leader recorded in a projection row:
`true` iff the rent path leads (`rentNetWorth > buyNetWorth ⇒ 'rent' else 'buy'`). -/
def leader (p : YearlyProjection) : Bool := decide (p.rentNetWorth > p.buyNetWorth)

/-- Modelled from the spec (§4.2 step 10, break-even detection): scan the rows
from year 2 onward; `prev` is the previous year's leader and `year` the year
of the head row; return the first year whose leader differs from the previous
year's. -/
def firstFlipFrom (prev : Bool) (year : ℕ) : List YearlyProjection → Option ℕ
  | [] => none
  | p :: ps => if leader p ≠ prev then some year else firstFlipFrom (leader p) (year + 1) ps

/-- Modelled from the spec (§4.2 step 10): the first year (from year 2 onward)
at which the net-worth leader differs from the previous year's leader, or
`none` if the leader never flips. -/
def firstFlip : List YearlyProjection → Option ℕ
  | [] => none
  | p :: ps => firstFlipFrom (leader p) 2 ps

/-- Modelled from the spec (§4.1): the closed-form amortizing-loan monthly
payment `P*r*(1+r)^n / ((1+r)^n - 1)` with monthly rate `r = annualRate/100/12`
and `n = termYears*12`, before rounding. -/
def mortgagePaymentFormula (principal annualRate : ℚ) (termYears : ℕ) : ℚ :=
  let r := annualRate / 100 / 12
  let n := termYears * 12
  principal * (r * (1 + r) ^ n) / ((1 + r) ^ n - 1)

/-! ## Basic properties of `round2` -/

theorem round2_nonneg {x : ℚ} (hx : 0 ≤ x) : 0 ≤ round2 x := by
  unfold round2
  have h : (0 : ℤ) ≤ ⌊x * 100 + 1 / 2⌋ := by
    apply Int.floor_nonneg.mpr
    nlinarith
  positivity

theorem round2_mono {x y : ℚ} (h : x ≤ y) : round2 x ≤ round2 y := by
  unfold round2
  have hf : ⌊x * 100 + 1 / 2⌋ ≤ ⌊y * 100 + 1 / 2⌋ := by
    apply Int.floor_le_floor
    nlinarith
  have : ((⌊x * 100 + 1 / 2⌋ : ℚ)) ≤ ((⌊y * 100 + 1 / 2⌋ : ℚ)) := by exact_mod_cast hf
  linarith

theorem round2_le_add {x : ℚ} : round2 x ≤ x + 1 / 200 := by
  unfold round2
  have h : ((⌊x * 100 + 1 / 2⌋ : ℚ)) ≤ x * 100 + 1 / 2 := Int.floor_le _
  linarith

theorem round2_idem (x : ℚ) : round2 (round2 x) = round2 x := by
  unfold round2
  have h : ((⌊x * 100 + 1 / 2⌋ : ℚ)) / 100 * 100 = ((⌊x * 100 + 1 / 2⌋ : ℚ)) := by ring
  rw [h, Int.floor_int_add]
  norm_num

/-! ## Structure of the yearly loop -/

/-- The projection row recorded for year `i + 1` (0-based index `i`). -/
def rowOf (inp : FinancialInputs) (i : ℕ) : YearlyProjection :=
  (step inp (i + 1) (runYears inp i).1 (runYears inp i).2).2

theorem runYears_succ (inp : FinancialInputs) (n : ℕ) :
    runYears inp (n + 1) =
      ((runYears inp n).1 ++ [rowOf inp n],
        (step inp (n + 1) (runYears inp n).1 (runYears inp n).2).1) := rfl

theorem rows_length (inp : FinancialInputs) : ∀ n, ((runYears inp n).1).length = n := by
  intro n
  induction n with
  | zero => rfl
  | succ n ih => rw [runYears_succ]; simp [ih]

theorem rows_get (inp : FinancialInputs) :
    ∀ n i, i < n → ((runYears inp n).1).get? i = some (rowOf inp i) := by
  intro n
  induction n with
  | zero => intro i hi; omega
  | succ n ih =>
    intro i hi
    rw [runYears_succ]
    rcases Nat.lt_or_ge i n with h | h
    · rw [List.get?_append (by rw [rows_length]; exact h)]
      exact ih i h
    · have hin : i = n := by omega
      subst hin
      have hl : ((runYears inp i).1).length = i := rows_length inp i
      have hc := List.get?_concat_length (runYears inp i).1 (rowOf inp i)
      rw [hl] at hc
      exact hc

theorem rows_get_none (inp : FinancialInputs) (n i : ℕ) (hi : n ≤ i) :
    ((runYears inp n).1).get? i = none := by
  apply List.get?_eq_none.mpr
  rw [rows_length]
  exact hi

theorem mem_rows (inp : FinancialInputs) :
    ∀ n p, p ∈ (runYears inp n).1 → ∃ i, i < n ∧ p = rowOf inp i := by
  intro n
  induction n with
  | zero => intro p hp; simp [runYears] at hp
  | succ n ih =>
    intro p hp
    rw [runYears_succ] at hp
    rcases List.mem_append.mp hp with h | h
    · obtain ⟨i, hi, rfl⟩ := ih p h
      exact ⟨i, by omega, rfl⟩
    · simp at h
      exact ⟨n, by omega, h⟩

/-! ## Field-level descriptions of one loop iteration -/

theorem step_row_year (inp : FinancialInputs) (y : ℕ) (rows : List YearlyProjection)
    (s : LoopState) : (step inp y rows s).2.year = y := rfl

theorem step_row_balance (inp : FinancialInputs) (y : ℕ) (rows : List YearlyProjection)
    (s : LoopState) :
    (step inp y rows s).2.mortgageBalance = (step inp y rows s).1.mortgageBalance := rfl

theorem step_row_cumOwn (inp : FinancialInputs) (y : ℕ) (rows : List YearlyProjection)
    (s : LoopState) :
    (step inp y rows s).2.cumulativeOwnershipCost =
      (step inp y rows s).1.cumulativeOwnershipCost := rfl

theorem step_row_totalRent (inp : FinancialInputs) (y : ℕ) (rows : List YearlyProjection)
    (s : LoopState) :
    (step inp y rows s).2.totalRentPaid = (step inp y rows s).1.cumulativeRentCost := rfl

theorem step_row_homeEquity (inp : FinancialInputs) (y : ℕ) (rows : List YearlyProjection)
    (s : LoopState) :
    (step inp y rows s).2.homeEquity =
      round2 ((step inp y rows s).2.homeValue - (step inp y rows s).2.mortgageBalance) := rfl

theorem step_balance_eq (inp : FinancialInputs) (y : ℕ) (rows : List YearlyProjection)
    (s : LoopState) :
    (step inp y rows s).1.mortgageBalance =
      round2 (max 0 (s.mortgageBalance -
        min (annualMortgage inp - s.mortgageBalance * (inp.interestRate / 100))
          s.mortgageBalance)) := rfl

theorem step_cumOwn_eq (inp : FinancialInputs) (y : ℕ) (rows : List YearlyProjection)
    (s : LoopState) :
    (step inp y rows s).1.cumulativeOwnershipCost =
      s.cumulativeOwnershipCost +
        (annualMortgage inp +
          (if s.mortgageBalance / s.currentHomeValue > 8 / 10 then
            s.mortgageBalance * (inp.pmiRate / 100) else 0) +
          s.currentHomeValue * (inp.propertyTaxRate / 100) + inp.homeInsurance +
          s.currentHomeValue * (inp.maintenanceRate / 100) + inp.hoaFees) := rfl

theorem step_cumRent_eq (inp : FinancialInputs) (y : ℕ) (rows : List YearlyProjection)
    (s : LoopState) :
    (step inp y rows s).1.cumulativeRentCost = s.cumulativeRentCost + s.currentRentPayment := rfl

theorem step_rentPayment_eq (inp : FinancialInputs) (y : ℕ) (rows : List YearlyProjection)
    (s : LoopState) :
    (step inp y rows s).1.currentRentPayment =
      s.currentRentPayment * (1 + inp.rentGrowthRate / 100) := rfl

theorem step_homeValue_eq (inp : FinancialInputs) (y : ℕ) (rows : List YearlyProjection)
    (s : LoopState) :
    (step inp y rows s).1.currentHomeValue =
      s.currentHomeValue * (1 + inp.homeAppreciationRate / 100) := rfl

/-! ## Mortgage-balance evolution -/

theorem step_balance_nonneg (inp : FinancialInputs) (y : ℕ) (rows : List YearlyProjection)
    (s : LoopState) : 0 ≤ (step inp y rows s).1.mortgageBalance := by
  rw [step_balance_eq]
  exact round2_nonneg (le_max_left _ _)

/-- Amortization with a payment covering the interest does not grow the
balance (before rounding: the new balance lies in `[0, old balance]`). -/
theorem step_balance_le (inp : FinancialInputs) (y : ℕ) (rows : List YearlyProjection)
    (s : LoopState) (hb : 0 ≤ s.mortgageBalance)
    (hco : s.mortgageBalance * (inp.interestRate / 100) ≤ annualMortgage inp) :
    (step inp y rows s).1.mortgageBalance ≤ round2 s.mortgageBalance := by
  rw [step_balance_eq]
  apply round2_mono
  have h1 : 0 ≤ annualMortgage inp - s.mortgageBalance * (inp.interestRate / 100) := by
    linarith
  have h2 : 0 ≤ min (annualMortgage inp - s.mortgageBalance * (inp.interestRate / 100))
      s.mortgageBalance := le_min h1 hb
  have h3 : s.mortgageBalance -
      min (annualMortgage inp - s.mortgageBalance * (inp.interestRate / 100))
        s.mortgageBalance ≤ s.mortgageBalance := by linarith
  exact max_le (by linarith) h3

/-- The state-level mortgage balance after `n` years. -/
def balanceAfter (inp : FinancialInputs) (n : ℕ) : ℚ := ((runYears inp n).2).mortgageBalance

theorem balanceAfter_zero (inp : FinancialInputs) : balanceAfter inp 0 = loanAmount inp := rfl

theorem balanceAfter_succ (inp : FinancialInputs) (n : ℕ) :
    balanceAfter inp (n + 1) =
      (step inp (n + 1) (runYears inp n).1 (runYears inp n).2).1.mortgageBalance := rfl

theorem rowOf_balance (inp : FinancialInputs) (i : ℕ) :
    (rowOf inp i).mortgageBalance = balanceAfter inp (i + 1) := rfl

/-- Invariant of the balance recursion under the payment-covers-interest
hypothesis: the balance stays in `[0, loanAmount + 1/200]` and is a fixed
point of `round2` from year 1 on. -/
theorem balance_invariant (inp : FinancialInputs) (hL : 0 ≤ loanAmount inp)
    (hr : 0 ≤ inp.interestRate)
    (hco : (loanAmount inp + 1 / 200) * (inp.interestRate / 100) ≤ annualMortgage inp) :
    ∀ n, 0 ≤ balanceAfter inp n ∧ balanceAfter inp n ≤ loanAmount inp + 1 / 200 ∧
      (1 ≤ n → round2 (balanceAfter inp n) = balanceAfter inp n) := by
  have hcover : ∀ b : ℚ, 0 ≤ b → b ≤ loanAmount inp + 1 / 200 →
      b * (inp.interestRate / 100) ≤ annualMortgage inp := by
    intro b hb0 hb1
    calc b * (inp.interestRate / 100)
        ≤ (loanAmount inp + 1 / 200) * (inp.interestRate / 100) := by
          apply mul_le_mul_of_nonneg_right hb1
          positivity
      _ ≤ annualMortgage inp := hco
  intro n
  induction n with
  | zero =>
    exact ⟨hL, by rw [balanceAfter_zero]; linarith, fun h => absurd h (by omega)⟩
  | succ n ih =>
    obtain ⟨h0, h1, hfix⟩ := ih
    have hle : balanceAfter inp (n + 1) ≤ round2 (balanceAfter inp n) := by
      rw [balanceAfter_succ]
      exact step_balance_le inp (n + 1) _ _ h0 (hcover _ h0 h1)
    have hnn : 0 ≤ balanceAfter inp (n + 1) := by
      rw [balanceAfter_succ]; exact step_balance_nonneg _ _ _ _
    refine ⟨hnn, ?_, fun _ => ?_⟩
    · rcases Nat.eq_zero_or_pos n with hn | hn
      · subst hn
        have h2 : round2 (balanceAfter inp 0) ≤ balanceAfter inp 0 + 1 / 200 := round2_le_add
        rw [balanceAfter_zero] at h2 h1
        rw [balanceAfter_zero] at hle
        linarith
      · rw [hfix hn] at hle
        linarith
    · rw [balanceAfter_succ, step_balance_eq]
      exact round2_idem _

/-- Under the payment-covers-interest hypothesis the state balance is
non-increasing from year 1 on. -/
theorem balanceAfter_antitone (inp : FinancialInputs) (hL : 0 ≤ loanAmount inp)
    (hr : 0 ≤ inp.interestRate)
    (hco : (loanAmount inp + 1 / 200) * (inp.interestRate / 100) ≤ annualMortgage inp) :
    ∀ n, 1 ≤ n → balanceAfter inp (n + 1) ≤ balanceAfter inp n := by
  intro n hn
  obtain ⟨h0, h1, hfix⟩ := balance_invariant inp hL hr hco n
  have hle : balanceAfter inp (n + 1) ≤ round2 (balanceAfter inp n) := by
    rw [balanceAfter_succ]
    apply step_balance_le inp (n + 1) _ _ h0
    calc balanceAfter inp n * (inp.interestRate / 100)
        ≤ (loanAmount inp + 1 / 200) * (inp.interestRate / 100) := by
          apply mul_le_mul_of_nonneg_right h1
          positivity
      _ ≤ annualMortgage inp := hco
  rw [hfix hn] at hle
  exact hle

/-! ## Nonnegativity of payments and costs -/

theorem calculateMortgagePayment_nonneg {principal annualRate : ℚ} (termYears : ℕ)
    (hP : 0 ≤ principal) (hr : 0 ≤ annualRate) :
    0 ≤ calculateMortgagePayment principal annualRate termYears := by
  unfold calculateMortgagePayment
  by_cases h : annualRate / 100 / 12 = 0
  · rw [if_pos h]
    positivity
  · rw [if_neg h]
    apply round2_nonneg
    have hr12 : 0 ≤ annualRate / 100 / 12 := by positivity
    have hx : (1 : ℚ) ≤ (1 + annualRate / 100 / 12) ^ (termYears * 12) :=
      one_le_pow₀ (by linarith)
    apply div_nonneg
    · exact mul_nonneg hP (mul_nonneg hr12 (by positivity))
    · linarith

/-- Conjunction of sign conditions on the inputs under which every ownership
cost component is nonnegative. -/
def NonnegInputs (inp : FinancialInputs) : Prop :=
  0 ≤ inp.homePrice ∧ 0 ≤ inp.downPaymentPercent ∧ inp.downPaymentPercent ≤ 100 ∧
    0 ≤ inp.currentRent ∧ 0 ≤ inp.interestRate ∧ 0 ≤ inp.pmiRate ∧
    0 ≤ inp.propertyTaxRate ∧ 0 ≤ inp.homeInsurance ∧ 0 ≤ inp.maintenanceRate ∧
    0 ≤ inp.hoaFees ∧ 0 ≤ inp.rentGrowthRate ∧ 0 ≤ inp.homeAppreciationRate

theorem loanAmount_nonneg {inp : FinancialInputs} (h : NonnegInputs inp) :
    0 ≤ loanAmount inp := by
  obtain ⟨h1, h2, h3, -⟩ := h
  unfold loanAmount downPayment
  nlinarith

theorem annualMortgage_nonneg {inp : FinancialInputs} (h : NonnegInputs inp) :
    0 ≤ annualMortgage inp := by
  unfold annualMortgage monthlyMortgage
  have := calculateMortgagePayment_nonneg inp.loanTermYears (loanAmount_nonneg h) h.2.2.2.2.1
  linarith

theorem state_nonneg (inp : FinancialInputs) (h : NonnegInputs inp) :
    ∀ n, 0 ≤ ((runYears inp n).2).currentRentPayment ∧
      0 ≤ ((runYears inp n).2).mortgageBalance ∧
      0 ≤ ((runYears inp n).2).currentHomeValue := by
  obtain ⟨hhp, hdp, hdp2, hrent, hir, hpmi, hpt, hins, hmr, hhoa, hrg, hha⟩ := h
  intro n
  induction n with
  | zero =>
    refine ⟨by simpa [runYears, initState] using by positivity, ?_, by simpa [runYears, initState] using hhp⟩
    simpa [runYears, initState] using
      loanAmount_nonneg ⟨hhp, hdp, hdp2, hrent, hir, hpmi, hpt, hins, hmr, hhoa, hrg, hha⟩
  | succ n ih =>
    obtain ⟨hr1, hb1, hv1⟩ := ih
    refine ⟨?_, ?_, ?_⟩
    · show 0 ≤ (step inp (n + 1) (runYears inp n).1 (runYears inp n).2).1.currentRentPayment
      rw [step_rentPayment_eq]
      have : (0 : ℚ) ≤ 1 + inp.rentGrowthRate / 100 := by linarith
      exact mul_nonneg hr1 this
    · exact step_balance_nonneg _ _ _ _
    · show 0 ≤ (step inp (n + 1) (runYears inp n).1 (runYears inp n).2).1.currentHomeValue
      rw [step_homeValue_eq]
      have : (0 : ℚ) ≤ 1 + inp.homeAppreciationRate / 100 := by linarith
      exact mul_nonneg hv1 this

theorem step_cumOwn_mono (inp : FinancialInputs) (h : NonnegInputs inp) (y : ℕ)
    (rows : List YearlyProjection) (s : LoopState) (hb : 0 ≤ s.mortgageBalance)
    (hv : 0 ≤ s.currentHomeValue) :
    s.cumulativeOwnershipCost ≤ (step inp y rows s).1.cumulativeOwnershipCost := by
  obtain ⟨hhp, hdp, hdp2, hrent, hir, hpmi, hpt, hins, hmr, hhoa, hrg, hha⟩ := h
  rw [step_cumOwn_eq]
  have hm := annualMortgage_nonneg ⟨hhp, hdp, hdp2, hrent, hir, hpmi, hpt, hins, hmr, hhoa, hrg, hha⟩
  have hpmi2 : (0 : ℚ) ≤
      (if s.mortgageBalance / s.currentHomeValue > 8 / 10 then
        s.mortgageBalance * (inp.pmiRate / 100) else 0) := by
    split
    · exact mul_nonneg hb (by positivity)
    · exact le_refl 0
  have h1 : 0 ≤ s.currentHomeValue * (inp.propertyTaxRate / 100) :=
    mul_nonneg hv (by positivity)
  have h2 : 0 ≤ s.currentHomeValue * (inp.maintenanceRate / 100) :=
    mul_nonneg hv (by positivity)
  linarith

theorem step_cumRent_mono (inp : FinancialInputs) (y : ℕ)
    (rows : List YearlyProjection) (s : LoopState) (hr : 0 ≤ s.currentRentPayment) :
    s.cumulativeRentCost ≤ (step inp y rows s).1.cumulativeRentCost := by
  rw [step_cumRent_eq]
  linarith

/-! ## Break-even detection -/

theorem step_breakEven_eq (inp : FinancialInputs) (y : ℕ) (rows : List YearlyProjection)
    (s : LoopState) :
    (step inp y rows s).1.breakEvenYear =
      match s.breakEvenYear with
      | some z => some z
      | none =>
        if y = 1 then none
        else
          match rows.get? (y - 2) with
          | none => none
          | some prev =>
            if leader prev ≠ leader (step inp y rows s).2 then some y else none := rfl

/-- The net-worth leader after scanning a list of rows, starting from `prev`
(the leader of the last row, or `prev` for an empty list). -/
def lastLeader (prev : Bool) (l : List YearlyProjection) : Bool :=
  l.foldl (fun _ p => leader p) prev

theorem lastLeader_cons (prev : Bool) (p : YearlyProjection) (ps : List YearlyProjection) :
    lastLeader prev (p :: ps) = lastLeader (leader p) ps := rfl

theorem lastLeader_concat (r : YearlyProjection) :
    ∀ (l : List YearlyProjection) (prev : Bool), lastLeader prev (l ++ [r]) = leader r := by
  intro l
  induction l with
  | nil => intro prev; rfl
  | cons p ps ih => intro prev; rw [List.cons_append, lastLeader_cons, ih]

theorem firstFlipFrom_append (r : YearlyProjection) :
    ∀ (l : List YearlyProjection) (prev : Bool) (y : ℕ),
      firstFlipFrom prev y (l ++ [r]) =
        match firstFlipFrom prev y l with
        | some z => some z
        | none => if leader r ≠ lastLeader prev l then some (y + l.length) else none := by
  intro l
  induction l with
  | nil =>
    intro prev y
    simp [firstFlipFrom, lastLeader]
  | cons p ps ih =>
    intro prev y
    rw [List.cons_append]
    show (if leader p ≠ prev then some y else firstFlipFrom (leader p) (y + 1) (ps ++ [r])) = _
    by_cases h : leader p ≠ prev
    · rw [if_pos h]
      show _ = (match (if leader p ≠ prev then some y else firstFlipFrom (leader p) (y + 1) ps :
          Option ℕ) with
        | some z => some z
        | none => if leader r ≠ lastLeader prev (p :: ps) then some (y + (p :: ps).length)
            else none)
      rw [if_pos h]
    · rw [if_neg h]
      rw [ih (leader p) (y + 1)]
      show _ = (match (if leader p ≠ prev then some y else firstFlipFrom (leader p) (y + 1) ps :
          Option ℕ) with
        | some z => some z
        | none => if leader r ≠ lastLeader prev (p :: ps) then some (y + (p :: ps).length)
            else none)
      rw [if_neg h, lastLeader_cons]
      have hlen : y + 1 + ps.length = y + (p :: ps).length := by simp; omega
      rw [hlen]

theorem firstFlip_concat (l : List YearlyProjection) (r : YearlyProjection) (hl : l ≠ []) :
    firstFlip (l ++ [r]) =
      match firstFlip l with
      | some z => some z
      | none => if leader r ≠ lastLeader true l then some (l.length + 1) else none := by
  obtain ⟨p, ps, rfl⟩ := List.exists_cons_of_ne_nil hl
  rw [List.cons_append]
  show firstFlipFrom (leader p) 2 (ps ++ [r]) = _
  rw [firstFlipFrom_append r ps (leader p) 2]
  show _ = (match firstFlipFrom (leader p) 2 ps with
    | some z => some z
    | none => if leader r ≠ lastLeader true (p :: ps) then some ((p :: ps).length + 1) else none)
  rw [lastLeader_cons]
  have hlen : 2 + ps.length = (p :: ps).length + 1 := by simp; omega
  rw [hlen]

/-- The loop's `breakEvenYear` equals the spec-side first-flip scan of the
recorded rows, after every number of years. -/
theorem breakEven_eq_firstFlip (inp : FinancialInputs) :
    ∀ n, ((runYears inp n).2).breakEvenYear = firstFlip ((runYears inp n).1) := by
  intro n
  induction n with
  | zero => rfl
  | succ n ih =>
    have hstate : (runYears inp (n + 1)).2 =
        (step inp (n + 1) (runYears inp n).1 (runYears inp n).2).1 := rfl
    rw [hstate, step_breakEven_eq, ih]
    rcases Nat.eq_zero_or_pos n with hn | hn
    · subst hn
      simp [firstFlip, runYears_succ, firstFlipFrom,
        show (runYears inp 0).1 = ([] : List YearlyProjection) from rfl]
    · have hne : (runYears inp n).1 ≠ [] := by
        intro hcon
        have := rows_length inp n
        rw [hcon] at this
        simp at this
        omega
      have hrows : (runYears inp (n + 1)).1 = (runYears inp n).1 ++ [rowOf inp n] := by
        rw [runYears_succ]
      rw [hrows, firstFlip_concat _ _ hne]
      have hprev : ((runYears inp n).1).get? (n + 1 - 2) = some (rowOf inp (n - 1)) := by
        have : n + 1 - 2 = n - 1 := by omega
        rw [this]
        exact rows_get inp n (n - 1) (by omega)
      cases hff : firstFlip ((runYears inp n).1) with
      | some z => rfl
      | none =>
        show (if n + 1 = 1 then none else _) = _
        rw [if_neg (by omega)]
        rw [hprev]
        have hlast : lastLeader true ((runYears inp n).1) = leader (rowOf inp (n - 1)) := by
          have hsplit : (runYears inp n).1 =
              (runYears inp (n - 1)).1 ++ [rowOf inp (n - 1)] := by
            have : n = (n - 1) + 1 := by omega
            rw [this, runYears_succ]
            simp
          rw [hsplit, lastLeader_concat]
        rw [hlast]
        have hlen : ((runYears inp n).1).length + 1 = n + 1 := by rw [rows_length]
        rw [hlen]
        have hrow : (step inp (n + 1) (runYears inp n).1 (runYears inp n).2).2 =
            rowOf inp n := rfl
        rw [hrow]
        show (if leader (rowOf inp (n - 1)) ≠ leader (rowOf inp n) then some (n + 1)
            else none) =
          (if leader (rowOf inp n) ≠ leader (rowOf inp (n - 1)) then some (n + 1) else none)
        by_cases hcmp : leader (rowOf inp (n - 1)) ≠ leader (rowOf inp n)
        · rw [if_pos hcmp, if_pos (Ne.symm hcmp)]
        · rw [if_neg hcmp, if_neg (fun hc => hcmp (Ne.symm hc))]

theorem firstFlipFrom_none :
    ∀ (t : List YearlyProjection) (prev : Bool) (y0 : ℕ),
      firstFlipFrom prev y0 t = none → ∀ i q, t.get? i = some q → leader q = prev := by
  intro t
  induction t with
  | nil => intro prev y0 _ i q hq; simp at hq
  | cons p ps ih =>
    intro prev y0 hff i q hq
    have hcond : ¬(leader p ≠ prev) := by
      intro hc
      rw [show firstFlipFrom prev y0 (p :: ps) =
        (if leader p ≠ prev then some y0 else firstFlipFrom (leader p) (y0 + 1) ps) from rfl,
        if_pos hc] at hff
      exact Option.noConfusion hff
    have hp : leader p = prev := not_not.mp hcond
    rw [show firstFlipFrom prev y0 (p :: ps) =
      (if leader p ≠ prev then some y0 else firstFlipFrom (leader p) (y0 + 1) ps) from rfl,
      if_neg hcond] at hff
    cases i with
    | zero => simp at hq; subst hq; exact hp
    | succ i =>
      have hq' : ps.get? i = some q := hq
      rw [← hp]
      exact ih (leader p) (y0 + 1) hff i q hq'

theorem firstFlipFrom_some :
    ∀ (t : List YearlyProjection) (prev : Bool) (y0 y : ℕ),
      firstFlipFrom prev y0 t = some y →
      ∃ i q, t.get? i = some q ∧ y = y0 + i ∧
        ((i = 0 ∧ leader q ≠ prev) ∨
          (1 ≤ i ∧ ∃ q', t.get? (i - 1) = some q' ∧ leader q ≠ leader q')) := by
  intro t
  induction t with
  | nil => intro prev y0 y hff; exact Option.noConfusion hff
  | cons p ps ih =>
    intro prev y0 y hff
    rw [show firstFlipFrom prev y0 (p :: ps) =
      (if leader p ≠ prev then some y0 else firstFlipFrom (leader p) (y0 + 1) ps) from rfl] at hff
    by_cases h : leader p ≠ prev
    · rw [if_pos h] at hff
      refine ⟨0, p, rfl, ?_, Or.inl ⟨rfl, h⟩⟩
      cases hff
      omega
    · rw [if_neg h] at hff
      obtain ⟨i, q, hq, hy, hflip⟩ := ih (leader p) (y0 + 1) y hff
      refine ⟨i + 1, q, hq, by omega, Or.inr ⟨by omega, ?_⟩⟩
      rcases hflip with ⟨hi0, hne⟩ | ⟨h1i, q', hq', hne⟩
      · subst hi0
        exact ⟨p, rfl, hne⟩
      · refine ⟨q', ?_, hne⟩
        show (p :: ps).get? i = some q'
        have hi : i - 1 + 1 = i := by omega
        have : (p :: ps).get? (i - 1 + 1) = ps.get? (i - 1) := rfl
        rw [hi] at this
        rw [this]
        exact hq'

/-! ## Totality of the engine and percentile ordering -/

theorem yearlyProjections_length (inp : FinancialInputs) :
    (yearlyProjections inp).length = inp.timeHorizonYears := rows_length inp _

theorem calculateRentVsBuy_some (inp : FinancialInputs) (hH : 1 ≤ inp.timeHorizonYears) :
    ∃ r, calculateRentVsBuy inp = some r ∧
      r.yearlyProjections = yearlyProjections inp ∧
      r.breakEvenYear = (finalState inp).breakEvenYear := by
  have hne : yearlyProjections inp ≠ [] := by
    intro hcon
    have := yearlyProjections_length inp
    rw [hcon] at this
    simp at this
    omega
  obtain ⟨fin, hfin⟩ := Option.isSome_iff_exists.mp (List.getLast?_isSome.mpr hne)
  refine ⟨{ yearlyProjections := yearlyProjections inp
            breakEvenYear := (finalState inp).breakEvenYear
            totalCostRent := fin.totalRentPaid + rentUpfrontCosts inp
            totalCostBuy := fin.cumulativeOwnershipCost + buyUpfrontCosts inp
            netWorthDifference := fin.buyNetWorth - fin.rentNetWorth
            totalTaxSavings := (finalState inp).cumulativeTaxSavings
            totalInterestPaid :=
              (yearlyProjections inp).foldl (fun acc p => acc + p.mortgageInterestPaid) 0 },
    ?_, rfl, rfl⟩
  simp only [calculateRentVsBuy, hfin]

theorem calculateRentVsBuy_none (inp : FinancialInputs) (hH : inp.timeHorizonYears = 0) :
    calculateRentVsBuy inp = none := by
  have hnil : yearlyProjections inp = [] := by
    apply List.length_eq_zero.mp
    rw [yearlyProjections_length, hH]
  unfold calculateRentVsBuy
  rw [hnil]
  rfl

theorem collectRuns_some {α β : Type} (f : α → Option β) :
    ∀ l : List α, (∀ a ∈ l, ∃ b, f a = some b) →
      ∃ bs, collectRuns f l = some bs ∧ bs.length = l.length := by
  intro l
  induction l with
  | nil => intro _; exact ⟨[], rfl, rfl⟩
  | cons a as ih =>
    intro h
    obtain ⟨b, hb⟩ := h a (List.mem_cons_self a as)
    obtain ⟨bs, hbs, hlen⟩ := ih fun x hx => h x (List.mem_cons_of_mem a hx)
    refine ⟨b :: bs, ?_, by simp [hlen]⟩
    unfold collectRuns
    rw [hb, hbs]

theorem collectRuns_get {α β : Type} (f : α → Option β) :
    ∀ (l : List α) (bs : List β), collectRuns f l = some bs →
      ∀ i a, l.get? i = some a → ∃ c, bs.get? i = some c ∧ f a = some c := by
  intro l
  induction l with
  | nil => intro bs h i a ha; simp at ha
  | cons x xs ih =>
    intro bs h i a ha
    unfold collectRuns at h
    cases hfx : f x with
    | none =>
      rw [hfx] at h
      exact absurd h (by simp)
    | some bx =>
      rw [hfx] at h
      cases hxs : collectRuns f xs with
      | none =>
        rw [hxs] at h
        exact absurd h (by simp)
      | some bxs =>
        rw [hxs] at h
        have h' : some (bx :: bxs) = some bs := h
        injection h' with h'
        subst h'
        cases i with
        | zero =>
          injection ha with ha
          subst ha
          exact ⟨bx, rfl, hfx⟩
        | succ j => exact ih bxs hxs j a ha

theorem getPercentile_le_getPercentile (arr : List ℚ) (hs : arr.Sorted (· ≤ ·))
    (hne : arr ≠ []) {p q : ℕ} (hpq : p ≤ q) :
    getPercentile arr p ≤ getPercentile arr q := by
  have hlen : 1 ≤ arr.length := List.length_pos.mpr hne
  set ip := min (arr.length * p / 100) (arr.length - 1) with hip
  set iq := min (arr.length * q / 100) (arr.length - 1) with hiq
  have hipq : ip ≤ iq := by
    apply min_le_min _ (le_refl _)
    exact Nat.div_le_div_right (Nat.mul_le_mul_left _ hpq)
  have hiplt : ip < arr.length := by omega
  have hiqlt : iq < arr.length := by omega
  unfold getPercentile
  rw [List.getD_eq_getD_get? arr 0 ip, List.getD_eq_getD_get? arr 0 iq,
    List.get?_eq_get hiplt, List.get?_eq_get hiqlt]
  exact hs.rel_get_of_le hipq

theorem percentileSummary_sorted (arr : List ℚ) (hs : arr.Sorted (· ≤ ·)) (hne : arr ≠ []) :
    (percentileSummary arr).p10 ≤ (percentileSummary arr).p25 ∧
      (percentileSummary arr).p25 ≤ (percentileSummary arr).p50 ∧
      (percentileSummary arr).p50 ≤ (percentileSummary arr).p75 ∧
      (percentileSummary arr).p75 ≤ (percentileSummary arr).p90 :=
  ⟨getPercentile_le_getPercentile arr hs hne (by omega),
    getPercentile_le_getPercentile arr hs hne (by omega),
    getPercentile_le_getPercentile arr hs hne (by omega),
    getPercentile_le_getPercentile arr hs hne (by omega)⟩

theorem yearlyProjections_get (inp : FinancialInputs) (i : ℕ)
    (hi : i < inp.timeHorizonYears) :
    (yearlyProjections inp).get? i = some (rowOf inp i) :=
  rows_get inp inp.timeHorizonYears i hi

theorem rowOf_cumOwn (inp : FinancialInputs) (i : ℕ) :
    (rowOf inp i).cumulativeOwnershipCost =
      ((runYears inp (i + 1)).2).cumulativeOwnershipCost := rfl

theorem rowOf_totalRent (inp : FinancialInputs) (i : ℕ) :
    (rowOf inp i).totalRentPaid = ((runYears inp (i + 1)).2).cumulativeRentCost := rfl

/-! ## Concrete inputs used by witnesses and counterexamples -/

/-- An all-zero input with a one-year loan and a one-year horizon. -/
def zeroInputs : FinancialInputs where
  homePrice := 0
  downPaymentPercent := 0
  currentRent := 0
  interestRate := 0
  loanTermYears := 1
  pmiRate := 0
  propertyTaxRate := 0
  homeInsurance := 0
  maintenanceRate := 0
  hoaFees := 0
  rentGrowthRate := 0
  investmentReturn := 0
  inflationRate := 0
  homeAppreciationRate := 0
  timeHorizonYears := 1
  marginalTaxRate := 0
  otherDeductions := 0
  closingCostsPercent := 0
  sellingCostsPercent := 0

/-- A two-year horizon variant of `zeroInputs`. -/
def twoYearInputs : FinancialInputs :=
  { zeroInputs with timeHorizonYears := 2 }

/-- A 19% down payment with a 1% PMI rate and 100% yearly appreciation:
LTV drops below 0.8 after year 1 while PMI (as initially determined) exists. -/
def exC1 : FinancialInputs :=
  { zeroInputs with
    homePrice := 100
    downPaymentPercent := 19
    pmiRate := 1
    homeAppreciationRate := 100
    loanTermYears := 30
    timeHorizonYears := 2 }

/-- Loan of `10.00499 * 4095 / 4096` at a 1200% annual rate over a one-year
term: the monthly payment `10.00499` rounds down to `10.00`, so the rounded
annual payment falls short of the annual interest and the balance grows. -/
def exC2a : FinancialInputs :=
  { zeroInputs with
    homePrice := (4097043405 : ℚ) / 409600000
    interestRate := 1200
    loanTermYears := 1
    timeHorizonYears := 2 }

/-- Loan of 100 at a 0.01% annual rate over a one-year term: the rounded
monthly payment (8.33) underpays, leaving a 0.05 balance at the end of the
loan term. -/
def exC2b : FinancialInputs :=
  { zeroInputs with
    homePrice := 100
    interestRate := 1 / 100
    loanTermYears := 1
    timeHorizonYears := 1 }

/-- Loan of 100 at a 1200% annual rate over a one-year term, three-year
horizon; here the rounded payment (100.02 monthly) covers the interest. -/
def exC2w : FinancialInputs :=
  { zeroInputs with
    homePrice := 100
    interestRate := 1200
    loanTermYears := 1
    timeHorizonYears := 3 }

/-- A 200% down payment: the loan amount is negative, the mortgage payment is
negative, and the cumulative ownership cost decreases. -/
def exC8 : FinancialInputs :=
  { zeroInputs with
    homePrice := 100
    downPaymentPercent := 200
    interestRate := 1200
    loanTermYears := 1
    timeHorizonYears := 2 }

/-! ## The claims -/

/-- C4: for principal ≥ 0 and a term of at least one year,
`calculateMortgagePayment` returns the standard amortizing-loan formula
`P·r(1+r)^n / ((1+r)^n − 1)` (monthly rate `r = annualRate/100/12`,
`n = termYears·12`) rounded to 2 decimal places, returns `principal / n`
when the monthly rate is 0, and `calculateMortgagePayment 400000 7 30`
equals exactly 2661.21. -/
theorem calculateMortgagePayment_spec (principal annualRate : ℚ) (termYears : ℕ)
    (hP : 0 ≤ principal) (ht : 1 ≤ termYears) :
    (annualRate ≠ 0 →
      calculateMortgagePayment principal annualRate termYears =
        round2 (mortgagePaymentFormula principal annualRate termYears)) ∧
    (annualRate = 0 →
      calculateMortgagePayment principal annualRate termYears =
        principal / ((termYears * 12 : ℕ) : ℚ)) ∧
    calculateMortgagePayment 400000 7 30 = 266121 / 100 := by
  refine ⟨?_, ?_, by norm_num [calculateMortgagePayment, round2]⟩
  · intro h
    have hr : annualRate / 100 / 12 ≠ 0 := by
      intro hc
      apply h
      field_simp at hc
      exact hc
    unfold calculateMortgagePayment mortgagePaymentFormula
    rw [if_neg hr]
  · intro h
    subst h
    unfold calculateMortgagePayment
    norm_num

/-- C4 witness: the hypotheses hold at `(400000, 7, 30)` and the conclusion
follows by instantiating the theorem there. -/
theorem calculateMortgagePayment_spec_witness :
    (0 : ℚ) ≤ 400000 ∧ 1 ≤ 30 ∧
      ((7 : ℚ) ≠ 0 →
        calculateMortgagePayment 400000 7 30 = round2 (mortgagePaymentFormula 400000 7 30)) ∧
      calculateMortgagePayment 400000 7 30 = 266121 / 100 :=
  ⟨by norm_num, by omega,
    (calculateMortgagePayment_spec 400000 7 30 (by norm_num) (by omega)).1,
    (calculateMortgagePayment_spec 400000 7 30 (by norm_num) (by omega)).2.2⟩

/-- C7: every recorded `YearlyProjection` row satisfies
`homeEquity = round2 (homeValue − mortgageBalance)` on its own recorded
`homeValue` and `mortgageBalance`. -/
theorem homeEquity_round_invariant (inp : FinancialInputs) (p : YearlyProjection)
    (hp : p ∈ yearlyProjections inp) :
    p.homeEquity = round2 (p.homeValue - p.mortgageBalance) := by
  obtain ⟨i, hi, rfl⟩ := mem_rows inp inp.timeHorizonYears p hp
  rfl

/-- C7 witness: the invariant instantiated at the single row produced by the
all-zero one-year input. -/
theorem homeEquity_round_invariant_witness :
    rowOf zeroInputs 0 ∈ yearlyProjections zeroInputs ∧
      (rowOf zeroInputs 0).homeEquity =
        round2 ((rowOf zeroInputs 0).homeValue - (rowOf zeroInputs 0).mortgageBalance) := by
  have hmem : rowOf zeroInputs 0 ∈ yearlyProjections zeroInputs := by
    rw [show yearlyProjections zeroInputs = [rowOf zeroInputs 0] from rfl]
    exact List.mem_singleton.mpr rfl
  exact ⟨hmem, homeEquity_round_invariant zeroInputs _ hmem⟩

/-- C6: `calculateRentVsBuy` has no internal error branch: the projection
list always has exactly `timeHorizonYears` rows with `year` fields
`1..timeHorizonYears` in order; for `timeHorizonYears ≥ 1` the full result is
produced, and for `timeHorizonYears = 0` the projection list is empty and
reading the final projection faults (`none`). -/
theorem calculateRentVsBuy_shape (inp : FinancialInputs) :
    (yearlyProjections inp).length = inp.timeHorizonYears ∧
    (∀ i, i < inp.timeHorizonYears →
      ∃ p, (yearlyProjections inp).get? i = some p ∧ p.year = i + 1) ∧
    (1 ≤ inp.timeHorizonYears →
      ∃ r, calculateRentVsBuy inp = some r ∧ r.yearlyProjections = yearlyProjections inp) ∧
    (inp.timeHorizonYears = 0 →
      yearlyProjections inp = [] ∧ calculateRentVsBuy inp = none) := by
  refine ⟨yearlyProjections_length inp, ?_, ?_, ?_⟩
  · intro i hi
    exact ⟨rowOf inp i, rows_get inp _ i hi, rfl⟩
  · intro hH
    obtain ⟨r, hr, hy, -⟩ := calculateRentVsBuy_some inp hH
    exact ⟨r, hr, hy⟩
  · intro h0
    have hnil : yearlyProjections inp = [] := by
      apply List.length_eq_zero.mp
      rw [yearlyProjections_length, h0]
    exact ⟨hnil, calculateRentVsBuy_none inp h0⟩

/-- C6 witness: the one-year all-zero input satisfies the precondition and
yields a full result. -/
theorem calculateRentVsBuy_shape_witness :
    1 ≤ zeroInputs.timeHorizonYears ∧
      ∃ r, calculateRentVsBuy zeroInputs = some r ∧
        r.yearlyProjections = yearlyProjections zeroInputs :=
  ⟨by decide, (calculateRentVsBuy_shape zeroInputs).2.2.1 (by decide)⟩

/-- C10: for a horizon of at least one year, `breakEvenYear` is either `null`
or an integer in `[2, timeHorizonYears]`; in particular it can never be 1. -/
theorem breakEvenYear_range (inp : FinancialInputs) (hH : 1 ≤ inp.timeHorizonYears) :
    (finalState inp).breakEvenYear = none ∨
      ∃ y, (finalState inp).breakEvenYear = some y ∧ 2 ≤ y ∧ y ≤ inp.timeHorizonYears := by
  have he : (finalState inp).breakEvenYear =
      firstFlip ((runYears inp inp.timeHorizonYears).1) :=
    breakEven_eq_firstFlip inp inp.timeHorizonYears
  cases hff : firstFlip ((runYears inp inp.timeHorizonYears).1) with
  | none => left; rw [he, hff]
  | some y =>
    right
    obtain ⟨p, ps, hcons⟩ : ∃ p ps, (runYears inp inp.timeHorizonYears).1 = p :: ps := by
      cases hrows : (runYears inp inp.timeHorizonYears).1 with
      | nil =>
        rw [hrows] at hff
        exact absurd hff (by simp [firstFlip])
      | cons a as => exact ⟨a, as, rfl⟩
    rw [hcons] at hff
    have hff' : firstFlipFrom (leader p) 2 ps = some y := hff
    obtain ⟨i, q, hq, hy, -⟩ := firstFlipFrom_some ps (leader p) 2 y hff'
    have hilen : i < ps.length := by
      obtain ⟨hlt, -⟩ := List.get?_eq_some.mp hq
      exact hlt
    have hlen : (p :: ps).length = inp.timeHorizonYears := by
      rw [← hcons, rows_length]
    simp only [List.length_cons] at hlen
    exact ⟨y, by rw [he, hcons, hff], by omega, by omega⟩

/-- C10 witness: instantiated at the all-zero one-year input. -/
theorem breakEvenYear_range_witness :
    1 ≤ zeroInputs.timeHorizonYears ∧
      ((finalState zeroInputs).breakEvenYear = none ∨
        ∃ y, (finalState zeroInputs).breakEvenYear = some y ∧ 2 ≤ y ∧
          y ≤ zeroInputs.timeHorizonYears) :=
  ⟨by decide, breakEvenYear_range zeroInputs (by decide)⟩

/-- C3: for a horizon of at least two years, `breakEvenYear` equals the first
year (from year 2 on) whose net-worth leader differs from the previous year's
leader and is never re-evaluated after being set (the first-flip scan
`firstFlip`); hence when it is `some y` the leader differs between years
`y − 1` and `y`, and when it is `none` every year has the same leader as
year 1. -/
theorem breakEvenYear_first_flip (inp : FinancialInputs) (hH : 2 ≤ inp.timeHorizonYears) :
    (finalState inp).breakEvenYear = firstFlip (yearlyProjections inp) ∧
    (∀ y, (finalState inp).breakEvenYear = some y →
      2 ≤ y ∧ y ≤ inp.timeHorizonYears ∧
      ∃ pi pj, (yearlyProjections inp).get? (y - 2) = some pi ∧
        (yearlyProjections inp).get? (y - 1) = some pj ∧ leader pi ≠ leader pj) ∧
    ((finalState inp).breakEvenYear = none →
      ∀ i p p0, (yearlyProjections inp).get? i = some p →
        (yearlyProjections inp).get? 0 = some p0 → leader p = leader p0) := by
  have he : (finalState inp).breakEvenYear = firstFlip (yearlyProjections inp) :=
    breakEven_eq_firstFlip inp inp.timeHorizonYears
  obtain ⟨p, ps, hcons⟩ : ∃ p ps, yearlyProjections inp = p :: ps := by
    cases hrows : yearlyProjections inp with
    | nil =>
      have hl := yearlyProjections_length inp
      rw [hrows] at hl
      simp at hl
      omega
    | cons a as => exact ⟨a, as, rfl⟩
  have hlen : ps.length + 1 = inp.timeHorizonYears := by
    have := yearlyProjections_length inp
    rw [hcons] at this
    simpa using this
  refine ⟨he, ?_, ?_⟩
  · intro y hy
    rw [he, hcons] at hy
    have hy' : firstFlipFrom (leader p) 2 ps = some y := hy
    obtain ⟨i, q, hq, hyi, hflip⟩ := firstFlipFrom_some ps (leader p) 2 y hy'
    have hilen : i < ps.length := (List.get?_eq_some.mp hq).1
    have h2 : y - 2 = i := by omega
    have h1 : y - 1 = i + 1 := by omega
    refine ⟨by omega, by omega, ?_⟩
    rw [hcons, h2, h1]
    rcases hflip with ⟨hi0, hne⟩ | ⟨h1i, q', hq', hne⟩
    · subst hi0
      exact ⟨p, q, rfl, hq, fun hc => hne hc.symm⟩
    · refine ⟨q', q, ?_, hq, fun hc => hne hc.symm⟩
      show (p :: ps).get? i = some q'
      have hi : i - 1 + 1 = i := by omega
      rw [← hi]
      exact hq'
  · intro hnone i p' p0 hp' hp0
    rw [he, hcons] at hnone
    rw [hcons] at hp' hp0
    have hnone' : firstFlipFrom (leader p) 2 ps = none := hnone
    have hall := firstFlipFrom_none ps (leader p) 2 hnone'
    have hp0' : p = p0 := by
      have h' : some p = some p0 := hp0
      injection h'
    rw [← hp0']
    cases i with
    | zero =>
      have h' : some p = some p' := hp'
      injection h' with h
      rw [← h]
    | succ j =>
      have hj : ps.get? j = some p' := hp'
      exact hall j p' hj

/-- C3 witness: the hypothesis holds at the all-zero two-year input. -/
theorem breakEvenYear_first_flip_witness :
    2 ≤ twoYearInputs.timeHorizonYears ∧
      (finalState twoYearInputs).breakEvenYear = firstFlip (yearlyProjections twoYearInputs) :=
  ⟨by decide, (breakEvenYear_first_flip twoYearInputs (by decide)).1⟩

/-- C1 counterexample: at `exC1` (19% down, so `hasPMI`; 1% PMI rate; 100%
yearly appreciation), year 2 of a 2-year horizon has
`mortgageBalance / currentHomeValue = 78.3/200 ≤ 0.8`, yet the PMI term of
the comparison baseline that feeds `annualSavings` is `0.81 ≠ 0`: that term
is not gated by loan-to-value. -/
theorem pmiComparison_ltv_counterexample :
    1 ≤ 2 ∧ 2 ≤ exC1.timeHorizonYears ∧
      annualPMIForComparison exC1 ≠ 0 ∧
      ¬((stateBefore exC1 2).mortgageBalance / (stateBefore exC1 2).currentHomeValue >
        8 / 10) := by
  have hb : (stateBefore exC1 2).mortgageBalance = 783 / 10 := by
    have e : stateBefore exC1 2 =
        (step exC1 (0 + 1) (runYears exC1 0).1 (runYears exC1 0).2).1 := rfl
    rw [e, step_balance_eq]
    norm_num [runYears, initState, loanAmount, downPayment, annualMortgage, monthlyMortgage,
      calculateMortgagePayment, round2, min_def, max_def, exC1, zeroInputs]
  have hv : (stateBefore exC1 2).currentHomeValue = 200 := by
    have e : stateBefore exC1 2 =
        (step exC1 (0 + 1) (runYears exC1 0).1 (runYears exC1 0).2).1 := rfl
    rw [e, step_homeValue_eq]
    norm_num [runYears, initState, exC1, zeroInputs]
  refine ⟨by omega, by decide, ?_, ?_⟩
  · norm_num [annualPMIForComparison, hasPMI, loanAmount, downPayment, exC1, zeroInputs]
  · rw [hb, hv]
    norm_num

/-- C1 (amended): the PMI component of the per-year comparison baseline that
derives `annualSavings` (the amount added to the renter's investment account)
is gated by the constant initial condition `downPaymentPercent < 20` and
computed on the original loan amount — it is independent of the year's
loan-to-value ratio and never burns off; the LTV-gated PMI
(`mortgageBalance / currentHomeValue > 0.8`, recomputed every year on the
pre-update balance) is the buy-path `pmiPayment` recorded in the row. -/
theorem pmiComparison_static_gating (inp : FinancialInputs) (y : ℕ) (hy1 : 1 ≤ y)
    (hy2 : y ≤ inp.timeHorizonYears) (p : YearlyProjection)
    (hp : (yearlyProjections inp).get? (y - 1) = some p) :
    annualPMIForComparison inp =
      (if inp.downPaymentPercent < 20 then loanAmount inp * (inp.pmiRate / 100) else 0) ∧
    p.investmentValue =
      (stateBefore inp y).investmentValue * (1 + inp.investmentReturn / 100) +
        ((annualMortgage inp + annualPMIForComparison inp +
            (stateBefore inp y).currentHomeValue * (inp.propertyTaxRate / 100) +
            inp.homeInsurance +
            (stateBefore inp y).currentHomeValue * (inp.maintenanceRate / 100) +
            inp.hoaFees) / 12 -
          (stateBefore inp y).currentRentPayment / 12) * 12 ∧
    p.pmiPayment =
      (if (stateBefore inp y).mortgageBalance / (stateBefore inp y).currentHomeValue > 8 / 10
        then (stateBefore inp y).mortgageBalance * (inp.pmiRate / 100) else 0) := by
  have hrg := yearlyProjections_get inp (y - 1) (by omega)
  rw [hrg] at hp
  injection hp with hp
  subst hp
  exact ⟨rfl, rfl, rfl⟩

/-- C1 amended witness: instantiated at the all-zero one-year input, year 1. -/
theorem pmiComparison_static_gating_witness :
    1 ≤ 1 ∧ 1 ≤ zeroInputs.timeHorizonYears ∧
      (yearlyProjections zeroInputs).get? (1 - 1) = some (rowOf zeroInputs 0) ∧
      (rowOf zeroInputs 0).pmiPayment =
        (if (stateBefore zeroInputs 1).mortgageBalance /
            (stateBefore zeroInputs 1).currentHomeValue > 8 / 10
          then (stateBefore zeroInputs 1).mortgageBalance * (zeroInputs.pmiRate / 100)
          else 0) := by
  have hget : (yearlyProjections zeroInputs).get? (1 - 1) = some (rowOf zeroInputs 0) :=
    rows_get zeroInputs _ 0 (by decide)
  exact ⟨le_refl 1, by decide, hget,
    (pmiComparison_static_gating zeroInputs 1 (by omega) (by decide) _ hget).2.2⟩

/-- C2 counterexample.  First conjunct (`exC2a`): with non-negative price and
rate, the recorded balances are 10.03 after year 1 and 10.39 after year 2 —
the sequence increases, because the rounded payment falls short of the
interest.  Second conjunct (`exC2b`): with a one-year loan and a one-year
horizon, the balance recorded at year `loanTermYears` is 0.05 ≠ 0 — the
balance does not reach 0 by the end of the loan term. -/
theorem mortgageBalance_claim_counterexample :
    (1 ≤ exC2a.timeHorizonYears ∧ 0 ≤ exC2a.homePrice ∧ 0 ≤ exC2a.interestRate ∧
      ∃ p q, (yearlyProjections exC2a).get? 0 = some p ∧
        (yearlyProjections exC2a).get? 1 = some q ∧
        ¬(q.mortgageBalance ≤ p.mortgageBalance)) ∧
    (exC2b.loanTermYears ≤ exC2b.timeHorizonYears ∧ 0 ≤ exC2b.homePrice ∧
      0 ≤ exC2b.interestRate ∧
      ∃ p, (yearlyProjections exC2b).get? (exC2b.loanTermYears - 1) = some p ∧
        p.mortgageBalance ≠ 0) := by
  constructor
  · refine ⟨by decide, by norm_num [exC2a, zeroInputs], by norm_num [exC2a, zeroInputs], ?_⟩
    have h1 : balanceAfter exC2a 1 = 1003 / 100 := by
      have e : balanceAfter exC2a 1 =
          (step exC2a (0 + 1) (runYears exC2a 0).1 (runYears exC2a 0).2).1.mortgageBalance := rfl
      rw [e, step_balance_eq]
      norm_num [runYears, initState, loanAmount, downPayment, annualMortgage, monthlyMortgage,
        calculateMortgagePayment, round2, min_def, max_def, exC2a, zeroInputs]
    have h2 : balanceAfter exC2a 2 = 1039 / 100 := by
      have e : balanceAfter exC2a 2 =
          (step exC2a (1 + 1) (runYears exC2a 1).1 (runYears exC2a 1).2).1.mortgageBalance := rfl
      rw [e, step_balance_eq]
      have hb : (runYears exC2a 1).2.mortgageBalance = 1003 / 100 := h1
      rw [hb]
      norm_num [annualMortgage, monthlyMortgage, calculateMortgagePayment, loanAmount,
        downPayment, round2, min_def, max_def, exC2a, zeroInputs]
    refine ⟨rowOf exC2a 0, rowOf exC2a 1, rows_get exC2a _ 0 (by decide),
      rows_get exC2a _ 1 (by decide), ?_⟩
    rw [rowOf_balance, rowOf_balance, h1, h2]
    norm_num
  · refine ⟨by decide, by norm_num [exC2b, zeroInputs], by norm_num [exC2b, zeroInputs], ?_⟩
    have h1 : balanceAfter exC2b 1 = 1 / 20 := by
      have e : balanceAfter exC2b 1 =
          (step exC2b (0 + 1) (runYears exC2b 0).1 (runYears exC2b 0).2).1.mortgageBalance := rfl
      rw [e, step_balance_eq]
      norm_num [runYears, initState, loanAmount, downPayment, annualMortgage, monthlyMortgage,
        calculateMortgagePayment, round2, min_def, max_def, exC2b, zeroInputs]
    refine ⟨rowOf exC2b 0, rows_get exC2b _ 0 (by decide), ?_⟩
    rw [rowOf_balance]
    show balanceAfter exC2b 1 ≠ 0
    rw [h1]
    norm_num

/-- C2 (amended): whenever the loan amount and interest rate are nonnegative
and the rounded annual mortgage payment covers one year's interest on
`loanAmount + 0.005` (a condition that can fail only through the
cent-rounding of the monthly payment), every recorded `mortgageBalance` is
≥ 0 (floored at 0) and successive recorded balances are non-increasing.
The balance need not reach 0 at or before `loanTermYears`: payment rounding
can leave a residual balance. -/
theorem mortgageBalance_nonneg_and_monotone (inp : FinancialInputs)
    (hL : 0 ≤ loanAmount inp) (hr : 0 ≤ inp.interestRate)
    (hco : (loanAmount inp + 1 / 200) * (inp.interestRate / 100) ≤ annualMortgage inp) :
    (∀ p ∈ yearlyProjections inp, 0 ≤ p.mortgageBalance) ∧
    (∀ i p q, (yearlyProjections inp).get? i = some p →
      (yearlyProjections inp).get? (i + 1) = some q →
      q.mortgageBalance ≤ p.mortgageBalance) := by
  constructor
  · intro p hp
    obtain ⟨i, hi, rfl⟩ := mem_rows inp inp.timeHorizonYears p hp
    rw [rowOf_balance]
    exact (balance_invariant inp hL hr hco (i + 1)).1
  · intro i p q hp hq
    have hiH : i + 1 < inp.timeHorizonYears := by
      have h := (List.get?_eq_some.mp hq).1
      rw [yearlyProjections_length] at h
      exact h
    have hpi := yearlyProjections_get inp i (by omega)
    have hqi := yearlyProjections_get inp (i + 1) (by omega)
    rw [hpi] at hp
    rw [hqi] at hq
    injection hp with hp
    injection hq with hq
    subst hp
    subst hq
    rw [rowOf_balance, rowOf_balance]
    exact balanceAfter_antitone inp hL hr hco (i + 1) (by omega)

/-- C2 amended witness: the hypotheses hold at `exC2w` (loan 100 at 1200%
over one year, rounded annual payment 1200.24 ≥ 1200.06). -/
theorem mortgageBalance_nonneg_and_monotone_witness :
    0 ≤ loanAmount exC2w ∧ 0 ≤ exC2w.interestRate ∧
      (loanAmount exC2w + 1 / 200) * (exC2w.interestRate / 100) ≤ annualMortgage exC2w ∧
      ((∀ p ∈ yearlyProjections exC2w, 0 ≤ p.mortgageBalance) ∧
        (∀ i p q, (yearlyProjections exC2w).get? i = some p →
          (yearlyProjections exC2w).get? (i + 1) = some q →
          q.mortgageBalance ≤ p.mortgageBalance)) := by
  have hL : 0 ≤ loanAmount exC2w := by
    norm_num [loanAmount, downPayment, exC2w, zeroInputs]
  have hr : 0 ≤ exC2w.interestRate := by norm_num [exC2w, zeroInputs]
  have hco : (loanAmount exC2w + 1 / 200) * (exC2w.interestRate / 100) ≤
      annualMortgage exC2w := by
    norm_num [annualMortgage, monthlyMortgage, calculateMortgagePayment, loanAmount,
      downPayment, round2, exC2w, zeroInputs]
  exact ⟨hL, hr, hco, mortgageBalance_nonneg_and_monotone exC2w hL hr hco⟩

/-- C8 counterexample: `exC8` has only non-negative inputs (a 200% down
payment, making the loan amount −100), yet `cumulativeOwnershipCost` is
−1200.24 after year 1 and −2400.48 after year 2 — strictly decreasing. -/
theorem cumulative_costs_counterexample :
    (0 ≤ exC8.homePrice ∧ 0 ≤ exC8.downPaymentPercent ∧ 0 ≤ exC8.currentRent ∧
      0 ≤ exC8.interestRate ∧ 0 ≤ exC8.pmiRate ∧ 0 ≤ exC8.propertyTaxRate ∧
      0 ≤ exC8.homeInsurance ∧ 0 ≤ exC8.maintenanceRate ∧ 0 ≤ exC8.hoaFees ∧
      0 ≤ exC8.rentGrowthRate ∧ 0 ≤ exC8.homeAppreciationRate) ∧
    ∃ p q, (yearlyProjections exC8).get? 0 = some p ∧
      (yearlyProjections exC8).get? 1 = some q ∧
      ¬(p.cumulativeOwnershipCost ≤ q.cumulativeOwnershipCost) := by
  constructor
  · norm_num [exC8, zeroInputs]
  · have h1 : (runYears exC8 1).2.cumulativeOwnershipCost = -30006 / 25 := by
      have e : (runYears exC8 1).2.cumulativeOwnershipCost =
          (step exC8 (0 + 1) (runYears exC8 0).1 (runYears exC8 0).2).1.cumulativeOwnershipCost :=
        rfl
      rw [e, step_cumOwn_eq]
      norm_num [runYears, initState, loanAmount, downPayment, annualMortgage, monthlyMortgage,
        calculateMortgagePayment, round2, min_def, max_def, exC8, zeroInputs]
    have hb : (runYears exC8 1).2.mortgageBalance = 0 := by
      have e : (runYears exC8 1).2.mortgageBalance =
          (step exC8 (0 + 1) (runYears exC8 0).1 (runYears exC8 0).2).1.mortgageBalance := rfl
      rw [e, step_balance_eq]
      norm_num [runYears, initState, loanAmount, downPayment, annualMortgage, monthlyMortgage,
        calculateMortgagePayment, round2, min_def, max_def, exC8, zeroInputs]
    have hv : (runYears exC8 1).2.currentHomeValue = 100 := by
      have e : (runYears exC8 1).2.currentHomeValue =
          (step exC8 (0 + 1) (runYears exC8 0).1 (runYears exC8 0).2).1.currentHomeValue := rfl
      rw [e, step_homeValue_eq]
      norm_num [runYears, initState, exC8, zeroInputs]
    have h2 : (runYears exC8 2).2.cumulativeOwnershipCost = -60012 / 25 := by
      have e : (runYears exC8 2).2.cumulativeOwnershipCost =
          (step exC8 (1 + 1) (runYears exC8 1).1 (runYears exC8 1).2).1.cumulativeOwnershipCost :=
        rfl
      rw [e, step_cumOwn_eq, h1, hb, hv]
      norm_num [annualMortgage, monthlyMortgage, calculateMortgagePayment, loanAmount,
        downPayment, round2, exC8, zeroInputs]
    refine ⟨rowOf exC8 0, rowOf exC8 1, yearlyProjections_get exC8 0 (by decide),
      yearlyProjections_get exC8 1 (by decide), ?_⟩
    rw [rowOf_cumOwn, rowOf_cumOwn, h1, h2]
    norm_num

/-- C8 (amended): for inputs whose prices, rents, rates and fees are all
non-negative and whose down-payment percentage does not exceed 100 (so the
loan amount is non-negative — a 200%-down input makes the mortgage payment
negative and the claim false), `cumulativeOwnershipCost` and `totalRentPaid`
are monotonically non-decreasing across successive recorded rows. -/
theorem cumulative_costs_monotone (inp : FinancialInputs) (h : NonnegInputs inp) :
    ∀ i p q, (yearlyProjections inp).get? i = some p →
      (yearlyProjections inp).get? (i + 1) = some q →
      p.cumulativeOwnershipCost ≤ q.cumulativeOwnershipCost ∧
        p.totalRentPaid ≤ q.totalRentPaid := by
  intro i p q hp hq
  have hiH : i + 1 < inp.timeHorizonYears := by
    have hlt := (List.get?_eq_some.mp hq).1
    rw [yearlyProjections_length] at hlt
    exact hlt
  rw [yearlyProjections_get inp i (by omega)] at hp
  rw [yearlyProjections_get inp (i + 1) (by omega)] at hq
  injection hp with hp
  injection hq with hq
  subst hp
  subst hq
  rw [rowOf_cumOwn, rowOf_cumOwn, rowOf_totalRent, rowOf_totalRent]
  obtain ⟨hrent, hbal, hval⟩ := state_nonneg inp h (i + 1)
  constructor
  · have e : (runYears inp (i + 1 + 1)).2.cumulativeOwnershipCost =
        (step inp (i + 1 + 1) (runYears inp (i + 1)).1
          (runYears inp (i + 1)).2).1.cumulativeOwnershipCost := rfl
    rw [e]
    exact step_cumOwn_mono inp h _ _ _ hbal hval
  · have e : (runYears inp (i + 1 + 1)).2.cumulativeRentCost =
        (step inp (i + 1 + 1) (runYears inp (i + 1)).1
          (runYears inp (i + 1)).2).1.cumulativeRentCost := rfl
    rw [e]
    exact step_cumRent_mono inp _ _ _ hrent

/-- C8 amended witness: the all-zero input satisfies the sign conditions. -/
theorem cumulative_costs_monotone_witness :
    NonnegInputs zeroInputs ∧
      ∀ i p q, (yearlyProjections zeroInputs).get? i = some p →
        (yearlyProjections zeroInputs).get? (i + 1) = some q →
        p.cumulativeOwnershipCost ≤ q.cumulativeOwnershipCost ∧
          p.totalRentPaid ≤ q.totalRentPaid := by
  have h : NonnegInputs zeroInputs := by
    norm_num [NonnegInputs, zeroInputs]
  exact ⟨h, cumulative_costs_monotone zeroInputs h⟩

/-- C5: for at least one simulated year and at least one simulation run, the
Monte Carlo reducer returns one result per year, and every year's five-number
summaries are ordered `p10 ≤ p25 ≤ p50 ≤ p75 ≤ p90` for both the rent and
the buy net-worth series (the samples are sorted ascending and the
percentile indices `floor(n*p/100)`, clamped to the last index, are monotone
in `p`). -/
theorem monteCarlo_percentiles_ordered (inp : FinancialInputs) (draws : List (ℚ × ℚ × ℚ))
    (hH : 1 ≤ inp.timeHorizonYears) (hsim : 1 ≤ draws.length) :
    ∃ rs, runMonteCarloSimulation inp draws = some rs ∧
      rs.length = inp.timeHorizonYears ∧
      ∀ r ∈ rs,
        (r.rentNetWorth.p10 ≤ r.rentNetWorth.p25 ∧ r.rentNetWorth.p25 ≤ r.rentNetWorth.p50 ∧
          r.rentNetWorth.p50 ≤ r.rentNetWorth.p75 ∧
          r.rentNetWorth.p75 ≤ r.rentNetWorth.p90) ∧
        (r.buyNetWorth.p10 ≤ r.buyNetWorth.p25 ∧ r.buyNetWorth.p25 ≤ r.buyNetWorth.p50 ∧
          r.buyNetWorth.p50 ≤ r.buyNetWorth.p75 ∧
          r.buyNetWorth.p75 ≤ r.buyNetWorth.p90) := by
  have hall : ∀ d ∈ draws, ∃ c, calculateRentVsBuy (perturb inp d) = some c := by
    intro d _
    obtain ⟨c, hc, -, -⟩ := calculateRentVsBuy_some (perturb inp d) hH
    exact ⟨c, hc⟩
  obtain ⟨sims, hsims, hslen⟩ :=
    collectRuns_some (fun d => calculateRentVsBuy (perturb inp d)) draws hall
  refine ⟨(List.range inp.timeHorizonYears).map (fun i => mcYear sims (i + 1)), ?_, ?_, ?_⟩
  · unfold runMonteCarloSimulation
    rw [hsims]
  · simp
  · intro r hr
    simp only [List.mem_map, List.mem_range] at hr
    obtain ⟨i, hi, rfl⟩ := hr
    have key : ∀ (f : YearlyProjection → ℚ),
        ((netWorthSamples sims (i + 1) f).insertionSort (· ≤ ·)).Sorted (· ≤ ·) ∧
          (netWorthSamples sims (i + 1) f).insertionSort (· ≤ ·) ≠ [] := by
      intro f
      refine ⟨List.sorted_insertionSort _ _, ?_⟩
      apply List.ne_nil_of_length_pos
      rw [List.length_insertionSort]
      unfold netWorthSamples
      rw [List.length_map, hslen]
      omega
    exact ⟨percentileSummary_sorted _ (key _).1 (key _).2,
      percentileSummary_sorted _ (key _).1 (key _).2⟩

/-- C5 witness: one year, one simulation run with zero perturbation. -/
theorem monteCarlo_percentiles_ordered_witness :
    1 ≤ zeroInputs.timeHorizonYears ∧
      1 ≤ ([((0 : ℚ), (0 : ℚ), (0 : ℚ))] : List (ℚ × ℚ × ℚ)).length ∧
      ∃ rs, runMonteCarloSimulation zeroInputs [(0, 0, 0)] = some rs ∧
        rs.length = zeroInputs.timeHorizonYears ∧
        ∀ r ∈ rs,
          (r.rentNetWorth.p10 ≤ r.rentNetWorth.p25 ∧ r.rentNetWorth.p25 ≤ r.rentNetWorth.p50 ∧
            r.rentNetWorth.p50 ≤ r.rentNetWorth.p75 ∧
            r.rentNetWorth.p75 ≤ r.rentNetWorth.p90) ∧
          (r.buyNetWorth.p10 ≤ r.buyNetWorth.p25 ∧ r.buyNetWorth.p25 ≤ r.buyNetWorth.p50 ∧
            r.buyNetWorth.p50 ≤ r.buyNetWorth.p75 ∧
            r.buyNetWorth.p75 ≤ r.buyNetWorth.p90) :=
  ⟨by decide, by decide,
    monteCarlo_percentiles_ordered zeroInputs [(0, 0, 0)] (by decide) (by decide)⟩

/-- C9: for every base input with at least a one-year horizon, the
sensitivity sweep produces four analyses; the "Home Price" analysis (index 0)
has exactly 5 values in the fixed delta order −20%, −10%, 0, +10%, +20%
(scaled multiplicatively), with the unperturbed base home price exactly at
index 2; the other three parameters are swept additively by −2..+2
percentage points. -/
theorem sensitivity_homePrice_center (b : FinancialInputs) (hH : 1 ≤ b.timeHorizonYears) :
    ∃ as, runSensitivityAnalysis b = some as ∧ as.length = 4 ∧
      (∃ a, as.get? 0 = some a ∧ a.parameter = "Home Price" ∧ a.values.length = 5 ∧
        a.values = [b.homePrice * (1 + -20 / 100), b.homePrice * (1 + -10 / 100), b.homePrice,
          b.homePrice * (1 + 10 / 100), b.homePrice * (1 + 20 / 100)] ∧
        a.values.get? 2 = some b.homePrice) ∧
      (∃ a, as.get? 1 = some a ∧ a.parameter = "Interest Rate" ∧
        a.values = [b.interestRate + -2, b.interestRate + -1, b.interestRate + 0,
          b.interestRate + 1, b.interestRate + 2]) ∧
      (∃ a, as.get? 2 = some a ∧ a.parameter = "Home Appreciation" ∧
        a.values = [b.homeAppreciationRate + -2, b.homeAppreciationRate + -1,
          b.homeAppreciationRate + 0, b.homeAppreciationRate + 1,
          b.homeAppreciationRate + 2]) ∧
      (∃ a, as.get? 3 = some a ∧ a.parameter = "Rent Growth" ∧
        a.values = [b.rentGrowthRate + -2, b.rentGrowthRate + -1, b.rentGrowthRate + 0,
          b.rentGrowthRate + 1, b.rentGrowthRate + 2]) := by
  have hsw : ∀ p : SweepParam, (∀ v, (p.apply b v).timeHorizonYears = b.timeHorizonYears) →
      ∃ rs, sweepRuns b p = some rs := by
    intro p happly
    have hall : ∀ delta ∈ p.range,
        ∃ r, (calculateRentVsBuy (p.apply b (testValue p delta))).map
          (fun r => (r.breakEvenYear, r.netWorthDifference)) = some r := by
      intro delta _
      obtain ⟨r, hr, -, -⟩ := calculateRentVsBuy_some (p.apply b (testValue p delta))
        (by rw [happly]; exact hH)
      exact ⟨(r.breakEvenYear, r.netWorthDifference), by rw [hr]; rfl⟩
    obtain ⟨rs, hrs, -⟩ := collectRuns_some _ p.range hall
    exact ⟨rs, hrs⟩
  have hmain : ∀ p ∈ sweepParams b,
      ∃ sa, (fun p : SweepParam =>
        (sweepRuns b p).map fun runs =>
          ({ parameter := p.name
             values := p.range.map (testValue p)
             breakEvenYears := runs.map Prod.fst
             finalNetWorthDifferences := runs.map Prod.snd } : SensitivityAnalysis)) p =
        some sa := by
    intro p hp
    have happly : ∀ v, (p.apply b v).timeHorizonYears = b.timeHorizonYears := by
      simp only [sweepParams, List.mem_cons, List.mem_singleton] at hp
      rcases hp with rfl | rfl | rfl | rfl | hp
      · exact fun v => rfl
      · exact fun v => rfl
      · exact fun v => rfl
      · exact fun v => rfl
      · simp at hp
    obtain ⟨rs, hrs⟩ := hsw p happly
    refine ⟨{ parameter := p.name
              values := p.range.map (testValue p)
              breakEvenYears := rs.map Prod.fst
              finalNetWorthDifferences := rs.map Prod.snd }, ?_⟩
    simp only [hrs, Option.map_some']
  obtain ⟨as, has, hlen⟩ := collectRuns_some _ (sweepParams b) hmain
  have hras : runSensitivityAnalysis b = some as := has
  have main : ∀ (i : ℕ) (P : SweepParam), (sweepParams b).get? i = some P →
      (∀ v, (P.apply b v).timeHorizonYears = b.timeHorizonYears) →
      ∃ c, as.get? i = some c ∧ c.parameter = P.name ∧
        c.values = P.range.map (testValue P) := by
    intro i P hP happly
    obtain ⟨rs, hrs⟩ := hsw P happly
    obtain ⟨c, hc, hfc⟩ := collectRuns_get _ (sweepParams b) as has i P hP
    rw [hrs] at hfc
    have hfc' : some ({ parameter := P.name
                        values := P.range.map (testValue P)
                        breakEvenYears := rs.map Prod.fst
                        finalNetWorthDifferences := rs.map Prod.snd } : SensitivityAnalysis) =
        some c := hfc
    injection hfc' with hfc'
    subst hfc'
    exact ⟨_, hc, rfl, rfl⟩
  obtain ⟨c0, hc0, hn0, hv0⟩ := main 0
    ⟨"Home Price", b.homePrice, [-20, -10, 0, 10, 20], true,
      fun i v => { i with homePrice := v }⟩ rfl (fun v => rfl)
  obtain ⟨c1, hc1, hn1, hv1⟩ := main 1
    ⟨"Interest Rate", b.interestRate, [-2, -1, 0, 1, 2], false,
      fun i v => { i with interestRate := v }⟩ rfl (fun v => rfl)
  obtain ⟨c2, hc2, hn2, hv2⟩ := main 2
    ⟨"Home Appreciation", b.homeAppreciationRate, [-2, -1, 0, 1, 2], false,
      fun i v => { i with homeAppreciationRate := v }⟩ rfl (fun v => rfl)
  obtain ⟨c3, hc3, hn3, hv3⟩ := main 3
    ⟨"Rent Growth", b.rentGrowthRate, [-2, -1, 0, 1, 2], false,
      fun i v => { i with rentGrowthRate := v }⟩ rfl (fun v => rfl)
  refine ⟨as, hras, by rw [hlen]; rfl, ?_, ?_, ?_, ?_⟩
  · refine ⟨c0, hc0, hn0, ?_, ?_, ?_⟩
    · rw [hv0]; rfl
    · rw [hv0]
      simp only [testValue, List.map_cons, List.map_nil, if_true]
      norm_num
    · rw [hv0]
      simp only [testValue, List.map_cons, List.map_nil, if_true]
      norm_num
  · refine ⟨c1, hc1, hn1, ?_⟩
    rw [hv1]
    simp only [testValue, List.map_cons, List.map_nil, Bool.false_eq_true, if_false]
  · refine ⟨c2, hc2, hn2, ?_⟩
    rw [hv2]
    simp only [testValue, List.map_cons, List.map_nil, Bool.false_eq_true, if_false]
  · refine ⟨c3, hc3, hn3, ?_⟩
    rw [hv3]
    simp only [testValue, List.map_cons, List.map_nil, Bool.false_eq_true, if_false]

/-- C9 witness: instantiated at the all-zero one-year input. -/
theorem sensitivity_homePrice_center_witness :
    1 ≤ zeroInputs.timeHorizonYears ∧
      ∃ as, runSensitivityAnalysis zeroInputs = some as ∧ as.length = 4 ∧
        (∃ a, as.get? 0 = some a ∧ a.parameter = "Home Price" ∧ a.values.length = 5 ∧
          a.values = [zeroInputs.homePrice * (1 + -20 / 100),
            zeroInputs.homePrice * (1 + -10 / 100), zeroInputs.homePrice,
            zeroInputs.homePrice * (1 + 10 / 100), zeroInputs.homePrice * (1 + 20 / 100)] ∧
          a.values.get? 2 = some zeroInputs.homePrice) ∧
        (∃ a, as.get? 1 = some a ∧ a.parameter = "Interest Rate" ∧
          a.values = [zeroInputs.interestRate + -2, zeroInputs.interestRate + -1,
            zeroInputs.interestRate + 0, zeroInputs.interestRate + 1,
            zeroInputs.interestRate + 2]) ∧
        (∃ a, as.get? 2 = some a ∧ a.parameter = "Home Appreciation" ∧
          a.values = [zeroInputs.homeAppreciationRate + -2, zeroInputs.homeAppreciationRate + -1,
            zeroInputs.homeAppreciationRate + 0, zeroInputs.homeAppreciationRate + 1,
            zeroInputs.homeAppreciationRate + 2]) ∧
        (∃ a, as.get? 3 = some a ∧ a.parameter = "Rent Growth" ∧
          a.values = [zeroInputs.rentGrowthRate + -2, zeroInputs.rentGrowthRate + -1,
            zeroInputs.rentGrowthRate + 0, zeroInputs.rentGrowthRate + 1,
            zeroInputs.rentGrowthRate + 2]) :=
  ⟨by decide, sensitivity_homePrice_center zeroInputs (by decide)⟩

end RentVsBuy
